import Mathlib

/-!
Verification development for the openai-assistant-streaming worker.

The Python sources are shallowly embedded as pure Lean functions:

* app/services/redis_service.py  -> RedisService.* over an explicit RedisState
* main.py run_conversation       -> run_conversation over a ConvEnv oracle for
                                    the external provider / transport
* main.py process_message        -> process_message
* main.py callback               -> callback (the RabbitMQ consumer callback)
* app/handlers/event_handler.py  -> on_event / processEvents / handle_tool_calls
* app/tools/registry.py          -> execute_function modelled through ToolBehavior

Timestamps are naturals counted in milliseconds; the source compares
time.time() floats, with 1.0 second becoming 1000 here.  External effects
(provider HTTP calls, WebSocket sends, broker acks) are made explicit as
returned traces and result fields.
-/

/-- Association-list lookup keyed by strings (models a Redis keyspace). -/
def alistFind {α : Type} (k : String) : List (String × α) → Option α
  | [] => none
  | (k', v) :: rest => if k' = k then some v else alistFind k rest

/-- Association-list insert-or-replace. -/
def alistInsert {α : Type} (k : String) (v : α) : List (String × α) → List (String × α)
  | [] => [(k, v)]
  | (k', v') :: rest =>
      if k' = k then (k, v) :: rest else (k', v') :: alistInsert k v rest

/-- Association-list key removal (models Redis DEL). -/
def alistErase {α : Type} (k : String) : List (String × α) → List (String × α)
  | [] => []
  | (k', v') :: rest =>
      if k' = k then alistErase k rest else (k', v') :: alistErase k rest

/-- Session metadata stored at metadata:{channel} (JSON decoding elided:
the dict is represented structurally; a missing created_at key is none). -/
structure ThreadMetadata where
  created_at : Option Nat
  message_count : Nat
  last_message_at : Nat
deriving DecidableEq, Repr

/-- The observable state of the Redis backend as used by RedisService.
available models whether the connection in __init__ succeeded
(self.redis is not None).  threads and metas are the thread:{ch} and
metadata:{ch} keyspaces, ttl the per-key expiry, assistantId the
assistant_id key (stored without TTL). -/
structure RedisState where
  available : Bool
  threads : List (String × String)
  metas : List (String × ThreadMetadata)
  ttl : List (String × Nat)
  assistantId : Option String
deriving DecidableEq, Repr

/-- REDIS_PREFIX default from app/core/config.py. -/
def redisKeyBase : String := "cosmo:"

/-- REDIS_THREAD_EXPIRY default (90 days in seconds). -/
def REDIS_THREAD_EXPIRY : Nat := 7776000

/-- RedisService._get_thread_key. -/
def getThreadKey (ch : String) : String := redisKeyBase ++ "thread:" ++ ch

/-- RedisService._get_metadata_key. -/
def getMetadataKey (ch : String) : String := redisKeyBase ++ "metadata:" ++ ch

/-- Redis EXPIRE: refreshes the ttl of a key when it exists (a no-op on a
missing key). -/
def RedisState.expireKey (st : RedisState) (key : String) : RedisState :=
  if (alistFind key st.threads).isSome ∨ (alistFind key st.metas).isSome then
    { st with ttl := alistInsert key REDIS_THREAD_EXPIRY st.ttl }
  else st

namespace RedisService

/-- RedisService.get_thread_id (redis_service.py lines 34-57): when the
backend is unavailable the channel id itself is returned as the thread id;
when the key is present its expiry (and the metadata key's) is refreshed. -/
def get_thread_id (st : RedisState) (ch : String) : Option String × RedisState :=
  if st.available then
    match alistFind (getThreadKey ch) st.threads with
    | some tid =>
        (some tid, (st.expireKey (getThreadKey ch)).expireKey (getMetadataKey ch))
    | none => (none, st)
  else
    (some ch, st)

/-- RedisService.set_thread_id: SETEX of the mapping (value plus ttl);
returns false without persisting anything when the backend is unavailable. -/
def set_thread_id (st : RedisState) (ch tid : String) : Bool × RedisState :=
  if st.available then
    (true, { st with
      threads := alistInsert (getThreadKey ch) tid st.threads,
      ttl := alistInsert (getThreadKey ch) REDIS_THREAD_EXPIRY st.ttl })
  else
    (false, st)

/-- RedisService.get_thread_metadata: returns none for the empty dict case;
refreshes the metadata key's expiry on a hit. -/
def get_thread_metadata (st : RedisState) (ch : String) :
    Option ThreadMetadata × RedisState :=
  if st.available then
    match alistFind (getMetadataKey ch) st.metas with
    | some md => (some md, st.expireKey (getMetadataKey ch))
    | none => (none, st)
  else
    (none, st)

/-- RedisService.set_thread_metadata: SETEX of the metadata JSON. -/
def set_thread_metadata (st : RedisState) (ch : String) (md : ThreadMetadata) :
    Bool × RedisState :=
  if st.available then
    (true, { st with
      metas := alistInsert (getMetadataKey ch) md st.metas,
      ttl := alistInsert (getMetadataKey ch) REDIS_THREAD_EXPIRY st.ttl })
  else
    (false, st)

/-- RedisService.delete_thread (redis_service.py lines 139-161): one DEL of
both the thread key and the metadata key. -/
def delete_thread (st : RedisState) (ch : String) : Bool × RedisState :=
  if st.available then
    (true, { st with
      threads := alistErase (getThreadKey ch) st.threads,
      metas := alistErase (getMetadataKey ch) st.metas,
      ttl := alistErase (getMetadataKey ch) (alistErase (getThreadKey ch) st.ttl) })
  else
    (false, st)

/-- RedisService.get_assistant_id. -/
def get_assistant_id (st : RedisState) : Option String :=
  if st.available then st.assistantId else none

end RedisService

/-- Provider-side effects performed by run_conversation, in call order. -/
inductive ProviderOp
  | createThread
  | checkThread (tid : String)
  | createMessage (tid : String) (message : String)
  | streamRun (tid : String)
deriving DecidableEq, Repr

/-- Terminal outcome of driving one streaming run (the poll loop of
main.py lines 222-271 plus its surrounding exception handlers). -/
inductive RunOutcome
  | completed
  | notFound (errText : String)
  | noResponse
  | stalled
  | genericError (errText : String)
deriving DecidableEq, Repr

/-- External oracle for one run_conversation call: WebSocket connect and
subscribe either succeed (none) or raise with the given text; the provider
answers check_thread_exists from existingThreads and returns freshThread
from create_thread; now is the wall clock; outcome is how the run ends. -/
structure ConvEnv where
  wsConnectErr : Option String
  wsSubscribeErr : Option String
  existingThreads : List String
  freshThread : String
  now : Nat
  outcome : RunOutcome
deriving DecidableEq, Repr

structure ResolveResult where
  thread_id : String
  redis : RedisState
  ops : List ProviderOp
deriving DecidableEq, Repr

/-- Thread resolution of main.py lines 156-191: use the cached mapping if
the provider still knows the thread, otherwise create a fresh thread and
store the new mapping (initialising metadata only on a cache miss). -/
def resolveThread (st : RedisState) (env : ConvEnv) (channel : String) :
    ResolveResult :=
  let g := RedisService.get_thread_id st channel
  match g.1 with
  | none =>
      let s2 := (RedisService.set_thread_id g.2 channel env.freshThread).2
      let s3 := (RedisService.set_thread_metadata s2 channel
        { created_at := some env.now, message_count := 0,
          last_message_at := env.now }).2
      { thread_id := env.freshThread, redis := s3, ops := [ProviderOp.createThread] }
  | some tid =>
      if env.existingThreads.contains tid then
        { thread_id := tid, redis := g.2, ops := [ProviderOp.checkThread tid] }
      else
        let s2 := (RedisService.set_thread_id g.2 channel env.freshThread).2
        { thread_id := env.freshThread, redis := s2,
          ops := [ProviderOp.checkThread tid, ProviderOp.createThread] }

/-- Metadata update of main.py lines 192-196: increment message_count with
a default of 0 and refresh last_message_at. -/
def updateMetadata (st : RedisState) (env : ConvEnv) (channel : String) :
    RedisState :=
  let g := RedisService.get_thread_metadata st channel
  (RedisService.set_thread_metadata g.2 channel
    { created_at := g.1.bind ThreadMetadata.created_at,
      message_count := (g.1.map ThreadMetadata.message_count).getD 0 + 1,
      last_message_at := env.now }).2

structure RunResult where
  success : Bool
  error_msg : String
  redis : RedisState
  lockHeld : Bool
  ops : List ProviderOp
deriving DecidableEq, Repr

/-- Body of run_conversation (main.py lines 121-333), i.e. everything that
runs while the conversation lock is held. -/
def run_conversation_body (st : RedisState) (env : ConvEnv)
    (message channel message_id : String) : (Bool × String) × RedisState × List ProviderOp :=
  match env.wsConnectErr with
  | some e =>
      ((false, "Failed to connect to WebSocket server: " ++ e), st, [])
  | none =>
  match env.wsSubscribeErr with
  | some e =>
      ((false, "Failed to subscribe to WebSocket channel " ++ channel ++ ": " ++ e),
        st, [])
  | none =>
    let r := resolveThread st env channel
    let st2 := updateMetadata r.redis env channel
    let ops := r.ops ++ [ProviderOp.createMessage r.thread_id message,
                         ProviderOp.streamRun r.thread_id]
    match env.outcome with
    | RunOutcome.completed => ((true, ""), st2, ops)
    | RunOutcome.notFound _ =>
        ((false, "Thread not found or was deleted during conversation."),
          (RedisService.delete_thread st2 channel).2, ops)
    | RunOutcome.noResponse =>
        ((false, "No response received from assistant"), st2, ops)
    | RunOutcome.stalled =>
        ((false, "Response stream interrupted"), st2, ops)
    | RunOutcome.genericError e =>
        ((false, "Error in conversation: " ++ e), st2, ops)

/-- run_conversation (main.py lines 88-337): assistant lookup, then the
non-blocking single-flight lock acquire; the body runs under try/finally
with conversation_lock.release() in the finally, so on every path where
the lock was acquired the returned lock state is free again, and on the
failed-acquire path the lock is untouched. -/
def run_conversation (st : RedisState) (lockHeld : Bool) (env : ConvEnv)
    (message channel message_id : String) : RunResult :=
  match RedisService.get_assistant_id st with
  | none =>
      { success := false,
        error_msg := "No assistant ID found in Redis. Please create an assistant first using --create-assistant",
        redis := st, lockHeld := lockHeld, ops := [] }
  | some _ =>
    if lockHeld then
      { success := false, error_msg := "Another conversation is already in progress",
        redis := st, lockHeld := lockHeld, ops := [] }
    else
      let b := run_conversation_body st env message channel message_id
      { success := b.1.1, error_msg := b.1.2, redis := b.2.1,
        lockHeld := false, ops := b.2.2 }

/-- One JSON field of the job payload as seen through dict.get: either the
key is missing or it holds a JSON value of some type. -/
inductive JField
  | missing
  | strVal (s : String)
  | numVal (n : Int)
  | boolVal (b : Bool)
  | nullVal
deriving DecidableEq, Repr

/-- Python truthiness of the value returned by dict.get (None and falsy
values both fail an `if not x` check). -/
def JField.truthy : JField → Bool
  | JField.missing => false
  | JField.strVal s => !s.isEmpty
  | JField.numVal n => n != 0
  | JField.boolVal b => b
  | JField.nullVal => false

def JField.isStr : JField → Bool
  | JField.strVal _ => true
  | _ => false

/-- The parsed JSON body of one broker job, restricted to the three fields
process_message reads. -/
structure MessageData where
  message : JField
  channel : JField
  message_id : JField
deriving DecidableEq, Repr

structure PMResult where
  success : Bool
  should_requeue : Bool
  error_msg : String
  redis : RedisState
  lockHeld : Bool
  ops : List ProviderOp
deriving DecidableEq, Repr

/-- process_message (main.py lines 340-405): field validation in source
order (message isinstance check; channel truthiness then isinstance;
message_id truthiness then isinstance), then delegation to
run_conversation. -/
def process_message (st : RedisState) (lockHeld : Bool) (env : ConvEnv)
    (md : MessageData) : PMResult :=
  match md.message with
  | JField.strVal user_message =>
    if !md.channel.truthy then
      { success := false, should_requeue := false,
        error_msg := "Missing required 'channel' field",
        redis := st, lockHeld := lockHeld, ops := [] }
    else
      match md.channel with
      | JField.strVal channel =>
        if !md.message_id.truthy then
          { success := false, should_requeue := false,
            error_msg := "Missing required 'message_id' field",
            redis := st, lockHeld := lockHeld, ops := [] }
        else
          match md.message_id with
          | JField.strVal message_id =>
              let r := run_conversation st lockHeld env user_message channel message_id
              { success := r.success, should_requeue := true, error_msg := r.error_msg,
                redis := r.redis, lockHeld := r.lockHeld, ops := r.ops }
          | _ =>
              { success := false, should_requeue := false,
                error_msg := "Invalid 'message_id' field",
                redis := st, lockHeld := lockHeld, ops := [] }
      | _ =>
        { success := false, should_requeue := false,
          error_msg := "Invalid 'channel' field - must be a string identifier (UUID, Convex ID, or any unique string)",
          redis := st, lockHeld := lockHeld, ops := [] }
  | _ =>
      { success := false, should_requeue := false,
        error_msg := "Invalid or missing 'message' field",
        redis := st, lockHeld := lockHeld, ops := [] }

/-- Fate of one broker delivery. -/
inductive Delivery
  | acked
  | rejected (requeue : Bool)
  | unacked
deriving DecidableEq, Repr

/-- Result of json.loads on the delivery body. -/
inductive ParsedBody
  | malformed (errText : String)
  | parsed (md : MessageData)
deriving DecidableEq, Repr

/-- External oracle for one callback invocation: the parse result, the
optional AMQP reply_to property, whether the 90-second SIGALRM fires while
processing, whether the freshly opened error-notification WebSocket
pipeline (connect, subscribe, send) succeeds, and the conversation
environment. -/
structure CallbackEnv where
  body : ParsedBody
  replyTo : Option String
  timeoutFires : Bool
  wsNotifyOk : Bool
  conv : ConvEnv
deriving DecidableEq, Repr

structure CallbackResult where
  delivery : Delivery
  replySent : List (String × String)
  wsErrorSent : Bool
  redis : RedisState
  lockHeld : Bool
  ops : List ProviderOp
deriving DecidableEq, Repr

/-- callback (main.py lines 1051-1215).  Paths mirrored from the source:
JSON parse failure replies to reply_to (when present) and rejects without
requeue; a successful process_message acks; any other process_message
result sends a best-effort WebSocket error and rejects without requeue
(the reject is outside the notification try/except, so it happens even if
the notification fails).  In the TimeoutError handler (and likewise the
generic Exception handler, lines 1127-1215) the basic_reject call sits
INSIDE the same try block as the WebSocket notification, so when the
notification pipeline raises, the reject is skipped and the delivery is
left unacknowledged.  A firing timeout is modelled as preempting the
processing before its effects land. -/
def callback (st : RedisState) (lockHeld : Bool) (env : CallbackEnv) :
    CallbackResult :=
  match env.body with
  | ParsedBody.malformed _ =>
      { delivery := Delivery.rejected false,
        replySent :=
          match env.replyTo with
          | some r =>
              [(r, "The message format is invalid. Please check your request and try again.")]
          | none => [],
        wsErrorSent := false, redis := st, lockHeld := lockHeld, ops := [] }
  | ParsedBody.parsed md =>
      if env.timeoutFires then
        if env.wsNotifyOk then
          { delivery := Delivery.rejected false, replySent := [],
            wsErrorSent := true, redis := st, lockHeld := lockHeld, ops := [] }
        else
          { delivery := Delivery.unacked, replySent := [],
            wsErrorSent := false, redis := st, lockHeld := lockHeld, ops := [] }
      else
        let r := process_message st lockHeld env.conv md
        if r.success then
          { delivery := Delivery.acked, replySent := [], wsErrorSent := false,
            redis := r.redis, lockHeld := r.lockHeld, ops := r.ops }
        else
          { delivery := Delivery.rejected false, replySent := [],
            wsErrorSent := env.wsNotifyOk, redis := r.redis,
            lockHeld := r.lockHeld, ops := r.ops }

/-- One message published on the pub/sub channel by the event handler
(the fields of the dicts built in event_handler.py). -/
structure SentMsg where
  message : String
  timestamp : Nat
  status : String
  type : String
  final_message : Bool
deriving DecidableEq, Repr

/-- Mutable state of one CosmoEventHandler instance (event_handler.py
lines 26-41).  last_sent_length is kept for fidelity although the source
never reads it. -/
structure HandlerState where
  message_content : String
  accumulated_content : String
  last_sent_length : Nat
  last_update_time : Nat
  last_ws_send_time : Nat
  is_complete : Bool
  has_started : Bool
  sent_responding_status : Bool
deriving DecidableEq, Repr

/-- CosmoEventHandler.__init__ field values (the initial status send of
lines 45-60 is an external effect and not part of the event outputs). -/
def CosmoEventHandler.init (t : Nat) : HandlerState :=
  { message_content := "", accumulated_content := "", last_sent_length := 0,
    last_update_time := t, last_ws_send_time := 0,
    is_complete := false, has_started := false, sent_responding_status := false }

/-- self.min_chunk_size. -/
def min_chunk_size : Nat := 10

/-- The 1.0-second minimum inter-send interval of event_handler.py line
143, in milliseconds. -/
def minSendIntervalMs : Nat := 1000

/-- Stream events relevant to the delta/completion relay (the
requires_action event drives handle_tool_calls, modelled separately).
Each event carries the wall-clock time at which the callback runs. -/
inductive StreamEvent
  | messageDelta (content : Option String) (t : Nat)
  | messageCompleted (t : Nat)
  | runCompleted (t : Nat)
deriving DecidableEq, Repr

def StreamEvent.time : StreamEvent → Nat
  | StreamEvent.messageDelta _ t => t
  | StreamEvent.messageCompleted t => t
  | StreamEvent.runCompleted t => t

/-- Lines 67-85: send the one-off started status on the first event. -/
def startedStep (st : HandlerState) (t : Nat) : HandlerState × List SentMsg :=
  if st.has_started then (st, [])
  else
    ({ st with has_started := true },
     [{ message := "Assistant is processing your request...", timestamp := t,
        status := "started", type := "status", final_message := false }])

/-- Lines 114-132: send the one-off responding status on the first delta. -/
def respondingStep (st : HandlerState) (t : Nat) : HandlerState × List SentMsg :=
  if st.sent_responding_status then (st, [])
  else
    ({ st with sent_responding_status := true },
     [{ message := "Assistant is responding...", timestamp := t,
        status := "responding", type := "status", final_message := false }])

/-- Lines 134-165: append the delta to both buffers, then flush the full
message_content as an in_progress frame when the buffered-character
threshold is reached or a second has passed since the last send. -/
def deltaContentStep (st : HandlerState) (content : String) (t : Nat) :
    HandlerState × List SentMsg :=
  let st := { st with message_content := st.message_content ++ content,
                      accumulated_content := st.accumulated_content ++ content }
  let should_send := (min_chunk_size ≤ st.accumulated_content.length)
                     || (minSendIntervalMs ≤ t - st.last_ws_send_time)
  if should_send && !st.accumulated_content.isEmpty then
    ({ st with last_ws_send_time := t, accumulated_content := "" },
     [{ message := st.message_content, timestamp := t,
        status := "in_progress", type := "response", final_message := false }])
  else
    (st, [])

/-- CosmoEventHandler.on_event (event_handler.py lines 62-204), restricted
to delta/completion events; returns the successor state and the frames
published during the callback, in send order. -/
def on_event (st : HandlerState) (e : StreamEvent) : HandlerState × List SentMsg :=
  let t := e.time
  let st := { st with last_update_time := t }
  let s1 := startedStep st t
  match e with
  | StreamEvent.messageDelta contentOpt _ =>
      let s2 := respondingStep s1.1 t
      match contentOpt with
      | none => (s2.1, s1.2 ++ s2.2)
      | some content =>
          let s3 := deltaContentStep s2.1 content t
          (s3.1, s1.2 ++ s2.2 ++ s3.2)
  | StreamEvent.messageCompleted _ =>
      ({ s1.1 with is_complete := true },
       s1.2 ++ [{ message := s1.1.message_content, timestamp := t,
                  status := "completed", type := "response", final_message := true }])
  | StreamEvent.runCompleted _ =>
      ({ s1.1 with is_complete := true }, s1.2)

/-- Drives on_event over a whole event sequence, concatenating the
published frames in order (the single event loop serialises them). -/
def processEvents (st : HandlerState) : List StreamEvent → HandlerState × List SentMsg
  | [] => (st, [])
  | e :: rest =>
      let r1 := on_event st e
      let r2 := processEvents r1.1 rest
      (r2.1, r1.2 ++ r2.2)

/-- The fallback output substituted when a tool raises TimeoutError
(event_handler.py lines 223-227). -/
def toolTimeoutFallback : String :=
  "The operation took too long to complete. Please try again."

/-- json.dumps on a result string (escaping of special characters elided;
the strings of interest contain none). -/
def jsonDumps (s : String) : String := "\"" ++ s ++ "\""

/-- Observable behaviour of one requested tool call when handle_tool_calls
processes it: json.loads of the arguments raises; or the awaited tool
method (run through registry.execute_function, which wraps it in NO
wait_for bound, registry.py lines 51-55) returns a value, returns None,
raises TimeoutError itself, raises some other exception, or never
returns. -/
inductive ToolBehavior
  | parseFail (e : String)
  | execOk (result : String)
  | execNone
  | execTimeout
  | execRaise (e : String)
  | diverges
deriving DecidableEq, Repr

structure ToolCallSpec where
  id : String
  behavior : ToolBehavior
deriving DecidableEq, Repr

structure ToolOutput where
  tool_call_id : String
  output : String
deriving DecidableEq, Repr

/-- The {tool_call_id, output} pair built for one tool call by
handle_tool_calls (event_handler.py lines 209-246): a raised TimeoutError
becomes the fallback text, any other exception from execution becomes
str(e) (then json.dumps like every result), and an argument-parse failure
hits the outer except which uses str(e) directly.  A diverging tool makes
loop.run_until_complete block forever: no pair is ever built. -/
def toolCallOutput : ToolCallSpec → Option ToolOutput
  | { id := i, behavior := ToolBehavior.parseFail e } =>
      some { tool_call_id := i, output := e }
  | { id := i, behavior := ToolBehavior.execOk r } =>
      some { tool_call_id := i, output := jsonDumps r }
  | { id := i, behavior := ToolBehavior.execNone } =>
      some { tool_call_id := i, output := "null" }
  | { id := i, behavior := ToolBehavior.execTimeout } =>
      some { tool_call_id := i, output := jsonDumps toolTimeoutFallback }
  | { id := i, behavior := ToolBehavior.execRaise e } =>
      some { tool_call_id := i, output := jsonDumps e }
  | { id := _, behavior := ToolBehavior.diverges } => none

/-- handle_tool_calls over the batch of requested tool calls: collects the
output pairs in order and submits them; if any tool call diverges the loop
never finishes and nothing is submitted (none). -/
def handle_tool_calls : List ToolCallSpec → Option (List ToolOutput)
  | [] => some []
  | c :: rest =>
      match toolCallOutput c with
      | none => none
      | some o => (handle_tool_calls rest).map (fun os => o :: os)

/-- Concatenation of delta contents in emission order. -/
def concatContents : List String → String
  | [] => ""
  | c :: rest => c ++ concatContents rest

/-- A reachable Redis state with a working backend and a stored assistant. -/
def sampleRedis : RedisState :=
  { available := true, threads := [], metas := [], ttl := [],
    assistantId := some "asst_1" }

/-- A Redis state whose backend connection failed in __init__. -/
def sampleRedisDown : RedisState :=
  { available := false, threads := [], metas := [], ttl := [],
    assistantId := some "asst_1" }

/-- A benign conversation environment: transport up, provider healthy. -/
def sampleConvEnv : ConvEnv :=
  { wsConnectErr := none, wsSubscribeErr := none,
    existingThreads := ["thread_a"], freshThread := "thread_new",
    now := 1700000, outcome := RunOutcome.completed }

/-- A well-formed job payload. -/
def sampleMd : MessageData :=
  { message := JField.strVal "hello", channel := JField.strVal "chan-1",
    message_id := JField.strVal "m1" }

/-- A Redis state holding a stale cached mapping for channel chan-1. -/
def staleRedis : RedisState :=
  { available := true,
    threads := [(getThreadKey "chan-1", "thread_stale")],
    metas := [(getMetadataKey "chan-1",
               { created_at := some 1, message_count := 3, last_message_at := 5 })],
    ttl := [], assistantId := some "asst_1" }

/-- An environment in which the provider reports thread-not-found mid-run. -/
def notFoundEnv : ConvEnv :=
  { sampleConvEnv with outcome := RunOutcome.notFound "gone" }

theorem alistFind_erase_self {α : Type} (k : String) (l : List (String × α)) :
    alistFind k (alistErase k l) = none := by
  induction l with
  | nil => rfl
  | cons p rest ih =>
      by_cases h : p.1 = k
      · simp [alistErase, h, ih]
      · simp [alistErase, alistFind, h, ih]

theorem alistFind_insert_self {α : Type} (k : String) (v : α) (l : List (String × α)) :
    alistFind k (alistInsert k v l) = some v := by
  induction l with
  | nil => simp [alistInsert, alistFind]
  | cons p rest ih =>
      by_cases h : p.1 = k
      · simp [alistInsert, alistFind, h]
      · simp [alistInsert, alistFind, h, ih]

@[simp] theorem expireKey_available (st : RedisState) (k : String) :
    (st.expireKey k).available = st.available := by
  unfold RedisState.expireKey; split <;> rfl

@[simp] theorem expireKey_threads (st : RedisState) (k : String) :
    (st.expireKey k).threads = st.threads := by
  unfold RedisState.expireKey; split <;> rfl

@[simp] theorem expireKey_metas (st : RedisState) (k : String) :
    (st.expireKey k).metas = st.metas := by
  unfold RedisState.expireKey; split <;> rfl

@[simp] theorem expireKey_assistantId (st : RedisState) (k : String) :
    (st.expireKey k).assistantId = st.assistantId := by
  unfold RedisState.expireKey; split <;> rfl

@[simp] theorem get_thread_id_snd_available (st : RedisState) (ch : String) :
    ((RedisService.get_thread_id st ch).2).available = st.available := by
  unfold RedisService.get_thread_id
  by_cases h : st.available <;> simp [h]
  cases alistFind (getThreadKey ch) st.threads <;> simp [h]

@[simp] theorem get_thread_id_snd_threads (st : RedisState) (ch : String) :
    ((RedisService.get_thread_id st ch).2).threads = st.threads := by
  unfold RedisService.get_thread_id
  by_cases h : st.available <;> simp [h]
  cases alistFind (getThreadKey ch) st.threads <;> simp [h]

@[simp] theorem get_thread_id_snd_metas (st : RedisState) (ch : String) :
    ((RedisService.get_thread_id st ch).2).metas = st.metas := by
  unfold RedisService.get_thread_id
  by_cases h : st.available <;> simp [h]
  cases alistFind (getThreadKey ch) st.threads <;> simp [h]

@[simp] theorem get_thread_id_snd_assistantId (st : RedisState) (ch : String) :
    ((RedisService.get_thread_id st ch).2).assistantId = st.assistantId := by
  unfold RedisService.get_thread_id
  by_cases h : st.available <;> simp [h]
  cases alistFind (getThreadKey ch) st.threads <;> simp [h]

@[simp] theorem set_thread_id_snd_available (st : RedisState) (ch tid : String) :
    ((RedisService.set_thread_id st ch tid).2).available = st.available := by
  unfold RedisService.set_thread_id; split <;> rfl

@[simp] theorem set_thread_id_snd_metas (st : RedisState) (ch tid : String) :
    ((RedisService.set_thread_id st ch tid).2).metas = st.metas := by
  unfold RedisService.set_thread_id; split <;> rfl

@[simp] theorem set_thread_id_snd_assistantId (st : RedisState) (ch tid : String) :
    ((RedisService.set_thread_id st ch tid).2).assistantId = st.assistantId := by
  unfold RedisService.set_thread_id; split <;> rfl

@[simp] theorem get_thread_metadata_snd_available (st : RedisState) (ch : String) :
    ((RedisService.get_thread_metadata st ch).2).available = st.available := by
  unfold RedisService.get_thread_metadata
  by_cases h : st.available <;> simp [h]
  cases alistFind (getMetadataKey ch) st.metas <;> simp [h]

@[simp] theorem get_thread_metadata_snd_threads (st : RedisState) (ch : String) :
    ((RedisService.get_thread_metadata st ch).2).threads = st.threads := by
  unfold RedisService.get_thread_metadata
  by_cases h : st.available <;> simp [h]
  cases alistFind (getMetadataKey ch) st.metas <;> simp [h]

@[simp] theorem get_thread_metadata_snd_assistantId (st : RedisState) (ch : String) :
    ((RedisService.get_thread_metadata st ch).2).assistantId = st.assistantId := by
  unfold RedisService.get_thread_metadata
  by_cases h : st.available <;> simp [h]
  cases alistFind (getMetadataKey ch) st.metas <;> simp [h]

@[simp] theorem set_thread_metadata_snd_available (st : RedisState) (ch : String)
    (md : ThreadMetadata) :
    ((RedisService.set_thread_metadata st ch md).2).available = st.available := by
  unfold RedisService.set_thread_metadata; split <;> rfl

@[simp] theorem set_thread_metadata_snd_threads (st : RedisState) (ch : String)
    (md : ThreadMetadata) :
    ((RedisService.set_thread_metadata st ch md).2).threads = st.threads := by
  unfold RedisService.set_thread_metadata; split <;> rfl

@[simp] theorem set_thread_metadata_snd_assistantId (st : RedisState) (ch : String)
    (md : ThreadMetadata) :
    ((RedisService.set_thread_metadata st ch md).2).assistantId = st.assistantId := by
  unfold RedisService.set_thread_metadata; split <;> rfl

@[simp] theorem delete_thread_snd_available (st : RedisState) (ch : String) :
    ((RedisService.delete_thread st ch).2).available = st.available := by
  unfold RedisService.delete_thread; split <;> rfl

@[simp] theorem delete_thread_snd_assistantId (st : RedisState) (ch : String) :
    ((RedisService.delete_thread st ch).2).assistantId = st.assistantId := by
  unfold RedisService.delete_thread; split <;> rfl

@[simp] theorem resolveThread_redis_available (st : RedisState) (env : ConvEnv)
    (ch : String) :
    (resolveThread st env ch).redis.available = st.available := by
  unfold resolveThread
  rcases hg : (RedisService.get_thread_id st ch).1 with _ | tid <;> simp [hg]
  split <;> simp

@[simp] theorem resolveThread_redis_assistantId (st : RedisState) (env : ConvEnv)
    (ch : String) :
    (resolveThread st env ch).redis.assistantId = st.assistantId := by
  unfold resolveThread
  rcases hg : (RedisService.get_thread_id st ch).1 with _ | tid <;> simp [hg]
  split <;> simp

@[simp] theorem updateMetadata_available (st : RedisState) (env : ConvEnv)
    (ch : String) :
    (updateMetadata st env ch).available = st.available := by
  unfold updateMetadata; simp

@[simp] theorem updateMetadata_threads (st : RedisState) (env : ConvEnv)
    (ch : String) :
    (updateMetadata st env ch).threads = st.threads := by
  unfold updateMetadata; simp

@[simp] theorem updateMetadata_assistantId (st : RedisState) (env : ConvEnv)
    (ch : String) :
    (updateMetadata st env ch).assistantId = st.assistantId := by
  unfold updateMetadata; simp

/-- C2: if the process-wide conversation lock is already held when a job
arrives (and an assistant is configured), run_conversation fails
immediately with the capacity error message and performs no provider
operation at all: no thread creation, no message creation, no stream. -/
theorem lock_held_rejects_job (st : RedisState) (env : ConvEnv)
    (aid m ch mid : String)
    (ha : RedisService.get_assistant_id st = some aid) :
    run_conversation st true env m ch mid =
      { success := false,
        error_msg := "Another conversation is already in progress",
        redis := st, lockHeld := true, ops := [] } := by
  simp [run_conversation, ha]

theorem lock_held_rejects_job_witness :
    RedisService.get_assistant_id sampleRedis = some "asst_1"
    ∧ run_conversation sampleRedis true sampleConvEnv "hi" "chan-1" "m1" =
        { success := false,
          error_msg := "Another conversation is already in progress",
          redis := sampleRedis, lockHeld := true, ops := [] } :=
  ⟨rfl, lock_held_rejects_job sampleRedis sampleConvEnv "asst_1" "hi" "chan-1" "m1" rfl⟩

/-- C9: with the cache backend unreachable, get_thread_id degrades to
returning the raw channel identifier as the thread identifier and
set_thread_id persists nothing, so the resolve step of the pipeline uses
the channel itself as the thread id (when the provider accepts it) without
touching any state — the job is not failed by resolution. -/
theorem cache_unavailable_uses_channel_id (st : RedisState) (env : ConvEnv)
    (ch tid : String) (h : st.available = false) :
    RedisService.get_thread_id st ch = (some ch, st)
    ∧ RedisService.set_thread_id st ch tid = (false, st)
    ∧ (ch ∈ env.existingThreads →
        resolveThread st env ch =
          { thread_id := ch, redis := st, ops := [ProviderOp.checkThread ch] }) := by
  refine ⟨?_, ?_, ?_⟩
  · simp [RedisService.get_thread_id, h]
  · simp [RedisService.set_thread_id, h]
  · intro hex
    simp [resolveThread, RedisService.get_thread_id, h, hex]

theorem cache_unavailable_uses_channel_id_witness :
    sampleRedisDown.available = false
    ∧ (RedisService.get_thread_id sampleRedisDown "chan-1" = (some "chan-1", sampleRedisDown)
       ∧ RedisService.set_thread_id sampleRedisDown "chan-1" "tid-1" = (false, sampleRedisDown)
       ∧ ("chan-1" ∈ ({ sampleConvEnv with existingThreads := ["chan-1"] } : ConvEnv).existingThreads →
            resolveThread sampleRedisDown { sampleConvEnv with existingThreads := ["chan-1"] } "chan-1" =
              { thread_id := "chan-1", redis := sampleRedisDown,
                ops := [ProviderOp.checkThread "chan-1"] })) :=
  ⟨rfl, cache_unavailable_uses_channel_id sampleRedisDown
    { sampleConvEnv with existingThreads := ["chan-1"] } "chan-1" "tid-1" rfl⟩

/-- C10: run_conversation never exits holding the lock it acquired: when
the lock is free on entry it is free again on exit on every path (the
release sits in the finally), and when acquisition fails the lock is left
untouched (still held by the other conversation). -/
theorem conversation_lock_released_on_exit (st : RedisState) (env : ConvEnv)
    (m ch mid : String) :
    (run_conversation st false env m ch mid).lockHeld = false
    ∧ (run_conversation st true env m ch mid).lockHeld = true := by
  constructor <;>
    (cases h : RedisService.get_assistant_id st <;> simp [run_conversation, h])

@[simp] theorem startedStep_accumulated (st : HandlerState) (t : Nat) :
    (startedStep st t).1.accumulated_content = st.accumulated_content := by
  unfold startedStep; split <;> rfl

@[simp] theorem startedStep_last_ws_send (st : HandlerState) (t : Nat) :
    (startedStep st t).1.last_ws_send_time = st.last_ws_send_time := by
  unfold startedStep; split <;> rfl

@[simp] theorem startedStep_message_content (st : HandlerState) (t : Nat) :
    (startedStep st t).1.message_content = st.message_content := by
  unfold startedStep; split <;> rfl

@[simp] theorem startedStep_is_complete (st : HandlerState) (t : Nat) :
    (startedStep st t).1.is_complete = st.is_complete := by
  unfold startedStep; split <;> rfl

@[simp] theorem respondingStep_accumulated (st : HandlerState) (t : Nat) :
    (respondingStep st t).1.accumulated_content = st.accumulated_content := by
  unfold respondingStep; split <;> rfl

@[simp] theorem respondingStep_last_ws_send (st : HandlerState) (t : Nat) :
    (respondingStep st t).1.last_ws_send_time = st.last_ws_send_time := by
  unfold respondingStep; split <;> rfl

@[simp] theorem respondingStep_message_content (st : HandlerState) (t : Nat) :
    (respondingStep st t).1.message_content = st.message_content := by
  unfold respondingStep; split <;> rfl

@[simp] theorem respondingStep_is_complete (st : HandlerState) (t : Nat) :
    (respondingStep st t).1.is_complete = st.is_complete := by
  unfold respondingStep; split <;> rfl

theorem mem_startedStep_status (st : HandlerState) (t : Nat) (m : SentMsg)
    (hm : m ∈ (startedStep st t).2) : m.status = "started" := by
  unfold startedStep at hm
  split at hm <;> simp at hm
  simp [hm]

theorem mem_respondingStep_status (st : HandlerState) (t : Nat) (m : SentMsg)
    (hm : m ∈ (respondingStep st t).2) : m.status = "responding" := by
  unfold respondingStep at hm
  split at hm <;> simp at hm
  simp [hm]

theorem mem_deltaContentStep_guard (st : HandlerState) (c : String) (t : Nat)
    (m : SentMsg) (hm : m ∈ (deltaContentStep st c t).2) :
    min_chunk_size ≤ (st.accumulated_content ++ c).length
    ∨ minSendIntervalMs ≤ t - st.last_ws_send_time := by
  simp only [deltaContentStep] at hm
  split at hm
  case isTrue h =>
    rw [Bool.and_eq_true, Bool.or_eq_true] at h
    rcases h.1 with h1 | h1
    · exact Or.inl (by simpa using h1)
    · exact Or.inr (by simpa using h1)
  case isFalse h => simp at hm

/-- C5 counterexample: two deltas of min_chunk_size characters arriving
100 ms apart each trigger the buffered-character branch of the flush
condition, so two in_progress frames are published 100 ms apart — far
below the 1-second minimum inter-send interval the claim asserts for
every stream. -/
theorem chunk_threshold_breaks_min_interval :
    (((processEvents (CosmoEventHandler.init 99000)
        [StreamEvent.messageDelta (some "0123456789") 100000,
         StreamEvent.messageDelta (some "abcdefghij") 100100,
         StreamEvent.messageCompleted 100200]).2.filter
          (fun m => m.status == "in_progress")).map SentMsg.timestamp
        = [100000, 100100])
    ∧ 100100 - 100000 < minSendIntervalMs := by
  constructor
  · rfl
  · decide

/-- C5 as amended: an in_progress flush is emitted for a delta only when
the buffered content (including that delta) has reached min_chunk_size
characters or at least the minimum interval has passed since the last
send — so flushes can be closer together than the interval, but only via
the character threshold. -/
theorem flush_guard_chunk_or_interval (st : HandlerState) (c : String) (t : Nat)
    (m : SentMsg)
    (hm : m ∈ (on_event st (StreamEvent.messageDelta (some c) t)).2)
    (hs : m.status = "in_progress") :
    min_chunk_size ≤ (st.accumulated_content ++ c).length
    ∨ minSendIntervalMs ≤ t - st.last_ws_send_time := by
  simp only [on_event, StreamEvent.time, List.mem_append] at hm
  rcases hm with (hm | hm) | hm
  · rw [mem_startedStep_status _ _ _ hm] at hs; simp at hs
  · rw [mem_respondingStep_status _ _ _ hm] at hs; simp at hs
  · have := mem_deltaContentStep_guard _ _ _ _ hm
    simpa using this

theorem flush_guard_chunk_or_interval_witness :
    ({ message := "0123456789", timestamp := 2000, status := "in_progress",
       type := "response", final_message := false } : SentMsg)
        ∈ (on_event (CosmoEventHandler.init 0)
            (StreamEvent.messageDelta (some "0123456789") 2000)).2
    ∧ ({ message := "0123456789", timestamp := 2000, status := "in_progress",
         type := "response", final_message := false } : SentMsg).status = "in_progress"
    ∧ (min_chunk_size ≤ ((CosmoEventHandler.init 0).accumulated_content ++ "0123456789").length
       ∨ minSendIntervalMs ≤ 2000 - (CosmoEventHandler.init 0).last_ws_send_time) :=
  ⟨by decide, by decide,
   flush_guard_chunk_or_interval (CosmoEventHandler.init 0) "0123456789" 2000
     { message := "0123456789", timestamp := 2000, status := "in_progress",
       type := "response", final_message := false } (by decide) (by decide)⟩

/-- C6 counterexample: a tool raising an exception whose text names a
recognized category ("database") has that raw text JSON-encoded and used
verbatim as the submitted tool output — raw exception text IS leaked. -/
theorem raw_exception_text_leaked :
    handle_tool_calls
        [{ id := "call_1",
           behavior := ToolBehavior.execRaise "database connection failed for user sa" }]
      = some [{ tool_call_id := "call_1",
                output := "\"database connection failed for user sa\"" }] := by
  decide

/-- C6 as amended: only a TimeoutError is converted to the fixed
user-safe fallback; every other exception raised during tool execution is
stringified and submitted (JSON-encoded) as the tool output, leaking the
raw text — the category-based friendly messages live in on_error and are
never applied to tool outputs. -/
theorem tool_error_output_shape (id1 id2 : String) (e : String) :
    handle_tool_calls
        [{ id := id1, behavior := ToolBehavior.execTimeout },
         { id := id2, behavior := ToolBehavior.execRaise e }]
      = some [{ tool_call_id := id1, output := jsonDumps toolTimeoutFallback },
              { tool_call_id := id2, output := jsonDumps e }] := rfl

/-- C7 counterexample: a tool call that never returns blocks
loop.run_until_complete inside handle_tool_calls forever — no fallback is
substituted, no outputs are submitted (the registry wraps the await in no
timeout at all), so the claimed per-tool watchdog does not exist. -/
theorem diverging_tool_blocks_submission :
    handle_tool_calls [{ id := "call_slow", behavior := ToolBehavior.diverges }]
      = none := rfl

/-- C7 as amended: when every tool call in the batch returns (possibly by
raising), handle_tool_calls submits exactly one output per call, in order
and keyed by the call ids, and any call that raised TimeoutError gets the
fixed fallback text as its output; but no bound is imposed on a tool that
never returns. -/
theorem nondiverging_tools_all_submitted (calls : List ToolCallSpec)
    (h : ∀ c ∈ calls, c.behavior ≠ ToolBehavior.diverges) :
    ∃ outs, handle_tool_calls calls = some outs
      ∧ outs.length = calls.length
      ∧ outs.map ToolOutput.tool_call_id = calls.map ToolCallSpec.id
      ∧ ∀ c ∈ calls, c.behavior = ToolBehavior.execTimeout →
          ({ tool_call_id := c.id, output := jsonDumps toolTimeoutFallback } : ToolOutput)
            ∈ outs := by
  induction calls with
  | nil => exact ⟨[], rfl, rfl, rfl, by simp⟩
  | cons c rest ih =>
      obtain ⟨outs, ho, hl, hids, htime⟩ := ih (fun x hx => h x (List.mem_cons_of_mem _ hx))
      have hc : c.behavior ≠ ToolBehavior.diverges := h c (List.mem_cons_self _ _)
      obtain ⟨o, hoc, hid⟩ : ∃ o, toolCallOutput c = some o ∧ o.tool_call_id = c.id := by
        rcases c with ⟨i, b⟩
        cases b <;> simp [toolCallOutput] at hc ⊢
      refine ⟨o :: outs, ?_, by simp [hl], by simp [hids, hid], ?_⟩
      · simp [handle_tool_calls, hoc, ho]
      · intro x hx hxt
        rcases List.mem_cons.mp hx with hx | hx
        · subst hx
          have : o = { tool_call_id := x.id, output := jsonDumps toolTimeoutFallback } := by
            rcases x with ⟨i, b⟩
            cases b <;> simp_all [toolCallOutput]
          simp [this]
        · exact List.mem_cons_of_mem _ (htime x hx hxt)

theorem nondiverging_tools_all_submitted_witness :
    (∀ c ∈ [({ id := "call_a", behavior := ToolBehavior.execTimeout } : ToolCallSpec)],
        c.behavior ≠ ToolBehavior.diverges)
    ∧ ∃ outs, handle_tool_calls
          [({ id := "call_a", behavior := ToolBehavior.execTimeout } : ToolCallSpec)]
          = some outs
        ∧ outs.length = [({ id := "call_a", behavior := ToolBehavior.execTimeout } : ToolCallSpec)].length
        ∧ outs.map ToolOutput.tool_call_id
            = [({ id := "call_a", behavior := ToolBehavior.execTimeout } : ToolCallSpec)].map ToolCallSpec.id
        ∧ ∀ c ∈ [({ id := "call_a", behavior := ToolBehavior.execTimeout } : ToolCallSpec)],
            c.behavior = ToolBehavior.execTimeout →
            ({ tool_call_id := c.id, output := jsonDumps toolTimeoutFallback } : ToolOutput) ∈ outs :=
  ⟨by decide, nondiverging_tools_all_submitted _ (by decide)⟩

@[simp] theorem deltaContentStep_message_content (st : HandlerState) (c : String)
    (t : Nat) :
    ((deltaContentStep st c t).1).message_content = st.message_content ++ c := by
  simp only [deltaContentStep]; split <;> rfl

@[simp] theorem deltaContentStep_is_complete (st : HandlerState) (c : String)
    (t : Nat) :
    ((deltaContentStep st c t).1).is_complete = st.is_complete := by
  simp only [deltaContentStep]; split <;> rfl

theorem on_event_delta_fst (st : HandlerState) (c : String) (t : Nat) :
    ((on_event st (StreamEvent.messageDelta (some c) t)).1).message_content
        = st.message_content ++ c
    ∧ ((on_event st (StreamEvent.messageDelta (some c) t)).1).is_complete
        = st.is_complete := by
  simp [on_event, StreamEvent.time]

theorem processEvents_append (st : HandlerState) (xs ys : List StreamEvent) :
    processEvents st (xs ++ ys)
      = ((processEvents (processEvents st xs).1 ys).1,
         (processEvents st xs).2 ++ (processEvents (processEvents st xs).1 ys).2) := by
  induction xs generalizing st with
  | nil => simp [processEvents]
  | cons e rest ih =>
      simp [processEvents, ih ((on_event st e).1), List.append_assoc]

theorem processEvents_deltas (ds : List (String × Nat)) (st : HandlerState) :
    ((processEvents st
        (ds.map (fun p => StreamEvent.messageDelta (some p.1) p.2))).1).message_content
        = st.message_content ++ concatContents (ds.map Prod.fst)
    ∧ ((processEvents st
        (ds.map (fun p => StreamEvent.messageDelta (some p.1) p.2))).1).is_complete
        = st.is_complete := by
  induction ds generalizing st with
  | nil => simp [processEvents, concatContents]
  | cons p rest ih =>
      obtain ⟨hc1, hk1⟩ := on_event_delta_fst st p.1 p.2
      obtain ⟨hc2, hk2⟩ :=
        ih ((on_event st (StreamEvent.messageDelta (some p.1) p.2)).1)
      simp only [List.map_cons, processEvents, concatContents]
      exact ⟨by rw [hc2, hc1, String.append_assoc], by rw [hk2, hk1]⟩

theorem on_event_completed_spec (st : HandlerState) (t : Nat) :
    (on_event st (StreamEvent.messageCompleted t)).2.getLast?
      = some { message := st.message_content, timestamp := t,
               status := "completed", type := "response", final_message := true }
    ∧ (on_event st (StreamEvent.messageCompleted t)).1.is_complete = true := by
  constructor
  · simp only [on_event, StreamEvent.time]
    rw [List.getLast?_concat]
    simp
  · simp [on_event]

/-- C4: for a run whose stream emits a sequence of text deltas and then a
message-completed event, the final frame published by the relay carries
exactly the concatenation of all deltas in emission order, is tagged
status=completed, and the handler ends with is_complete = true (set after
that final frame was sent, which is the last frame of the run). -/
theorem final_flush_concatenates_deltas (ds : List (String × Nat)) (t0 tE : Nat) :
    ((processEvents (CosmoEventHandler.init t0)
        (ds.map (fun p => StreamEvent.messageDelta (some p.1) p.2)
          ++ [StreamEvent.messageCompleted tE])).2).getLast?
      = some { message := concatContents (ds.map Prod.fst), timestamp := tE,
               status := "completed", type := "response", final_message := true }
    ∧ (processEvents (CosmoEventHandler.init t0)
        (ds.map (fun p => StreamEvent.messageDelta (some p.1) p.2)
          ++ [StreamEvent.messageCompleted tE])).1.is_complete = true := by
  rw [processEvents_append]
  obtain ⟨hc, _⟩ := processEvents_deltas ds (CosmoEventHandler.init t0)
  obtain ⟨hl, hk⟩ := on_event_completed_spec
    ((processEvents (CosmoEventHandler.init t0)
      (ds.map (fun p => StreamEvent.messageDelta (some p.1) p.2))).1) tE
  constructor
  · rw [List.getLast?_append]
    simp only [processEvents]
    simp only [List.append_nil]
    rw [hl, hc]
    simp [CosmoEventHandler.init]
  · simp only [processEvents, List.append_nil]
    exact hk

theorem process_message_invalid_fields (st : RedisState) (lock : Bool)
    (env : ConvEnv) (md : MessageData)
    (h : md.message.isStr = false ∨ md.channel.isStr = false
         ∨ md.message_id.isStr = false) :
    ∃ emsg, process_message st lock env md =
      { success := false, should_requeue := false, error_msg := emsg,
        redis := st, lockHeld := lock, ops := [] } := by
  rcases md with ⟨f1, f2, f3⟩
  cases f1 <;> cases f2 <;> cases f3 <;>
    simp_all [process_message, JField.isStr, JField.truthy] <;>
    (try split) <;> (try split) <;> exact ⟨_, rfl⟩

/-- C3 as amended: a job payload whose message, channel or message_id is
missing or not a string is rejected without requeue before any session
lookup (no Redis thread read, no provider call, Redis untouched, lock
untouched) — but no validation-failure response is published to the reply
address: the reply address is notified only for JSON parse failures, and
field-validation failures are instead reported on the job's pub/sub
channel. -/
theorem invalid_fields_rejected_no_reply (st : RedisState) (lock : Bool)
    (conv : ConvEnv) (replyTo : Option String) (wsOk : Bool) (md : MessageData)
    (h : md.message.isStr = false ∨ md.channel.isStr = false
         ∨ md.message_id.isStr = false) :
    (callback st lock
      { body := ParsedBody.parsed md, replyTo := replyTo,
        timeoutFires := false, wsNotifyOk := wsOk, conv := conv }).delivery
        = Delivery.rejected false
    ∧ (callback st lock
        { body := ParsedBody.parsed md, replyTo := replyTo,
          timeoutFires := false, wsNotifyOk := wsOk, conv := conv }).replySent = []
    ∧ (callback st lock
        { body := ParsedBody.parsed md, replyTo := replyTo,
          timeoutFires := false, wsNotifyOk := wsOk, conv := conv }).ops = []
    ∧ (callback st lock
        { body := ParsedBody.parsed md, replyTo := replyTo,
          timeoutFires := false, wsNotifyOk := wsOk, conv := conv }).redis = st
    ∧ (callback st lock
        { body := ParsedBody.parsed md, replyTo := replyTo,
          timeoutFires := false, wsNotifyOk := wsOk, conv := conv }).lockHeld = lock := by
  obtain ⟨emsg, hp⟩ := process_message_invalid_fields st lock conv md h
  simp [callback, hp]

theorem invalid_fields_rejected_no_reply_witness :
    (({ message := JField.missing, channel := JField.strVal "chan-1",
        message_id := JField.strVal "m1" } : MessageData).message.isStr = false
      ∨ ({ message := JField.missing, channel := JField.strVal "chan-1",
           message_id := JField.strVal "m1" } : MessageData).channel.isStr = false
      ∨ ({ message := JField.missing, channel := JField.strVal "chan-1",
           message_id := JField.strVal "m1" } : MessageData).message_id.isStr = false)
    ∧ ((callback sampleRedis false
        { body := ParsedBody.parsed
            { message := JField.missing, channel := JField.strVal "chan-1",
              message_id := JField.strVal "m1" },
          replyTo := some "reply-q", timeoutFires := false, wsNotifyOk := true,
          conv := sampleConvEnv }).delivery = Delivery.rejected false
      ∧ (callback sampleRedis false
          { body := ParsedBody.parsed
              { message := JField.missing, channel := JField.strVal "chan-1",
                message_id := JField.strVal "m1" },
            replyTo := some "reply-q", timeoutFires := false, wsNotifyOk := true,
            conv := sampleConvEnv }).replySent = []
      ∧ (callback sampleRedis false
          { body := ParsedBody.parsed
              { message := JField.missing, channel := JField.strVal "chan-1",
                message_id := JField.strVal "m1" },
            replyTo := some "reply-q", timeoutFires := false, wsNotifyOk := true,
            conv := sampleConvEnv }).ops = []
      ∧ (callback sampleRedis false
          { body := ParsedBody.parsed
              { message := JField.missing, channel := JField.strVal "chan-1",
                message_id := JField.strVal "m1" },
            replyTo := some "reply-q", timeoutFires := false, wsNotifyOk := true,
            conv := sampleConvEnv }).redis = sampleRedis
      ∧ (callback sampleRedis false
          { body := ParsedBody.parsed
              { message := JField.missing, channel := JField.strVal "chan-1",
                message_id := JField.strVal "m1" },
            replyTo := some "reply-q", timeoutFires := false, wsNotifyOk := true,
            conv := sampleConvEnv }).lockHeld = false) :=
  ⟨Or.inl rfl,
   invalid_fields_rejected_no_reply sampleRedis false sampleConvEnv
     (some "reply-q") true
     { message := JField.missing, channel := JField.strVal "chan-1",
       message_id := JField.strVal "m1" } (Or.inl rfl)⟩

/-- C3 counterexample: a delivery that carries a reply address and is
missing its message field is rejected, but nothing is ever published to
the reply address — refuting the claim's assertion that a
validation-failure response is sent there. -/
theorem missing_field_no_reply_counterexample :
    (callback sampleRedis false
      { body := ParsedBody.parsed
          { message := JField.missing, channel := JField.strVal "chan-2",
            message_id := JField.strVal "m2" },
        replyTo := some "reply-q-2", timeoutFires := false, wsNotifyOk := true,
        conv := sampleConvEnv }).replySent = []
    ∧ (callback sampleRedis false
        { body := ParsedBody.parsed
            { message := JField.missing, channel := JField.strVal "chan-2",
              message_id := JField.strVal "m2" },
          replyTo := some "reply-q-2", timeoutFires := false, wsNotifyOk := true,
          conv := sampleConvEnv }).delivery = Delivery.rejected false := by
  decide

theorem run_success_outcome (st : RedisState) (lock : Bool) (env : ConvEnv)
    (m ch mid : String)
    (h : (run_conversation st lock env m ch mid).success = true) :
    env.outcome = RunOutcome.completed := by
  unfold run_conversation run_conversation_body at h
  cases ha : RedisService.get_assistant_id st <;> rw [ha] at h
  · simp at h
  · cases lock
    · cases hc : env.wsConnectErr <;> rw [hc] at h
      · cases hs : env.wsSubscribeErr <;> rw [hs] at h
        · cases ho : env.outcome <;> rw [ho] at h <;> simp_all
        · simp at h
      · simp at h
    · simp at h

theorem process_success_outcome (st : RedisState) (lock : Bool) (env : ConvEnv)
    (md : MessageData)
    (h : (process_message st lock env md).success = true) :
    env.outcome = RunOutcome.completed := by
  rcases md with ⟨f1, f2, f3⟩
  cases f1 <;> cases f2 <;> cases f3 <;>
    simp_all [process_message, JField.truthy] <;>
    (try split at h) <;> (try split at h) <;>
    first
      | exact run_success_outcome _ _ _ _ _ _ h
      | simp_all

/-- C1 as amended: a delivery is acked iff the timeout did not fire, the
body parsed, and the conversation pipeline succeeded (which happens only
when the run reached completed); it is left unacknowledged exactly when
the 90-second timeout fires and the error-notification pipeline then
fails (the reject sits inside the same try block as the notification);
in every other case it is rejected with requeue=False. -/
theorem callback_ack_discipline (st : RedisState) (lock : Bool)
    (env : CallbackEnv) :
    ((callback st lock env).delivery = Delivery.acked ↔
      (env.timeoutFires = false ∧ ∃ md, env.body = ParsedBody.parsed md
        ∧ (process_message st lock env.conv md).success = true))
    ∧ ((callback st lock env).delivery = Delivery.acked →
        env.conv.outcome = RunOutcome.completed)
    ∧ ((callback st lock env).delivery = Delivery.unacked ↔
      (env.timeoutFires = true ∧ env.wsNotifyOk = false
        ∧ ∃ md, env.body = ParsedBody.parsed md))
    ∧ ((callback st lock env).delivery ≠ Delivery.acked →
        (callback st lock env).delivery ≠ Delivery.unacked →
        (callback st lock env).delivery = Delivery.rejected false) := by
  rcases env with ⟨body, replyTo, tf, wsOk, conv⟩
  rcases body with e | md
  · simp [callback]
  · cases tf
    · by_cases hp : (process_message st lock conv md).success = true
      · refine ⟨?_, ?_, ?_, ?_⟩
        · simp [callback, hp]
        · intro _
          exact process_success_outcome st lock conv md hp
        · simp [callback, hp]
        · simp [callback, hp]
      · refine ⟨?_, ?_, ?_, ?_⟩ <;>
          simp_all [callback]
    · cases wsOk <;> simp [callback]

theorem callback_ack_discipline_witness :
    ((callback sampleRedis false
        { body := ParsedBody.parsed sampleMd, replyTo := none,
          timeoutFires := false, wsNotifyOk := true,
          conv := sampleConvEnv }).delivery = Delivery.acked ↔
      (({ body := ParsedBody.parsed sampleMd, replyTo := none,
          timeoutFires := false, wsNotifyOk := true,
          conv := sampleConvEnv } : CallbackEnv).timeoutFires = false
        ∧ ∃ md, ({ body := ParsedBody.parsed sampleMd, replyTo := none,
                   timeoutFires := false, wsNotifyOk := true,
                   conv := sampleConvEnv } : CallbackEnv).body = ParsedBody.parsed md
            ∧ (process_message sampleRedis false sampleConvEnv md).success = true))
    ∧ ((callback sampleRedis false
        { body := ParsedBody.parsed sampleMd, replyTo := none,
          timeoutFires := false, wsNotifyOk := true,
          conv := sampleConvEnv }).delivery = Delivery.acked →
        sampleConvEnv.outcome = RunOutcome.completed)
    ∧ ((callback sampleRedis false
        { body := ParsedBody.parsed sampleMd, replyTo := none,
          timeoutFires := false, wsNotifyOk := true,
          conv := sampleConvEnv }).delivery = Delivery.unacked ↔
      (({ body := ParsedBody.parsed sampleMd, replyTo := none,
          timeoutFires := false, wsNotifyOk := true,
          conv := sampleConvEnv } : CallbackEnv).timeoutFires = true
        ∧ ({ body := ParsedBody.parsed sampleMd, replyTo := none,
             timeoutFires := false, wsNotifyOk := true,
             conv := sampleConvEnv } : CallbackEnv).wsNotifyOk = false
        ∧ ∃ md, ({ body := ParsedBody.parsed sampleMd, replyTo := none,
                   timeoutFires := false, wsNotifyOk := true,
                   conv := sampleConvEnv } : CallbackEnv).body = ParsedBody.parsed md))
    ∧ ((callback sampleRedis false
        { body := ParsedBody.parsed sampleMd, replyTo := none,
          timeoutFires := false, wsNotifyOk := true,
          conv := sampleConvEnv }).delivery ≠ Delivery.acked →
        (callback sampleRedis false
          { body := ParsedBody.parsed sampleMd, replyTo := none,
            timeoutFires := false, wsNotifyOk := true,
            conv := sampleConvEnv }).delivery ≠ Delivery.unacked →
        (callback sampleRedis false
          { body := ParsedBody.parsed sampleMd, replyTo := none,
            timeoutFires := false, wsNotifyOk := true,
            conv := sampleConvEnv }).delivery = Delivery.rejected false) :=
  callback_ack_discipline sampleRedis false
    { body := ParsedBody.parsed sampleMd, replyTo := none,
      timeoutFires := false, wsNotifyOk := true, conv := sampleConvEnv }

/-- C1 counterexample: when the 90-second timeout fires and the
error-notification WebSocket pipeline then fails, the basic_reject inside
the same try block is skipped and the delivery is left unacknowledged —
refuting the claim that the callback always leaves the delivery acked or
rejected. -/
theorem callback_unacked_on_notify_failure :
    (callback sampleRedis false
      { body := ParsedBody.parsed sampleMd, replyTo := none,
        timeoutFires := true, wsNotifyOk := false,
        conv := sampleConvEnv }).delivery = Delivery.unacked := by
  decide

theorem delete_thread_snd_threads (st : RedisState) (ch : String)
    (h : st.available = true) :
    ((RedisService.delete_thread st ch).2).threads
      = alistErase (getThreadKey ch) st.threads := by
  simp [RedisService.delete_thread, h]

theorem delete_thread_snd_metas (st : RedisState) (ch : String)
    (h : st.available = true) :
    ((RedisService.delete_thread st ch).2).metas
      = alistErase (getMetadataKey ch) st.metas := by
  simp [RedisService.delete_thread, h]

theorem set_thread_id_snd_threads (st : RedisState) (ch tid : String)
    (h : st.available = true) :
    ((RedisService.set_thread_id st ch tid).2).threads
      = alistInsert (getThreadKey ch) tid st.threads := by
  simp [RedisService.set_thread_id, h]

/-- C8: after a run on which the provider reported "thread not found"
(the NotFoundError handler of main.py lines 276-293), the channel's
cached thread key and metadata key are gone from the cache, and the next
run for that channel resolves to a cache miss: it performs exactly
create-thread, create-message and stream-run against the freshly created
provider thread (never the stale id) and caches the fresh id. -/
theorem invalidate_then_fresh_thread
    (st : RedisState) (ch m1 m2 mid1 mid2 aid e : String)
    (env1 env2 : ConvEnv)
    (hav : st.available = true)
    (ha : st.assistantId = some aid)
    (h1c : env1.wsConnectErr = none) (h1s : env1.wsSubscribeErr = none)
    (h1o : env1.outcome = RunOutcome.notFound e)
    (h2c : env2.wsConnectErr = none) (h2s : env2.wsSubscribeErr = none)
    (h2o : env2.outcome = RunOutcome.completed) :
    alistFind (getThreadKey ch)
        (run_conversation st false env1 m1 ch mid1).redis.threads = none
    ∧ alistFind (getMetadataKey ch)
        (run_conversation st false env1 m1 ch mid1).redis.metas = none
    ∧ (run_conversation (run_conversation st false env1 m1 ch mid1).redis
        false env2 m2 ch mid2).ops
        = [ProviderOp.createThread,
           ProviderOp.createMessage env2.freshThread m2,
           ProviderOp.streamRun env2.freshThread]
    ∧ alistFind (getThreadKey ch)
        (run_conversation (run_conversation st false env1 m1 ch mid1).redis
          false env2 m2 ch mid2).redis.threads
        = some env2.freshThread := by
  have hga : RedisService.get_assistant_id st = some aid := by
    simp [RedisService.get_assistant_id, hav, ha]
  have hrun1 : (run_conversation st false env1 m1 ch mid1).redis
      = (RedisService.delete_thread
          (updateMetadata (resolveThread st env1 ch).redis env1 ch) ch).2 := by
    simp [run_conversation, hga, run_conversation_body, h1c, h1s, h1o]
  have h2av : (updateMetadata (resolveThread st env1 ch).redis env1 ch).available
      = true := by simp [hav]
  have h1avail : (run_conversation st false env1 m1 ch mid1).redis.available = true := by
    rw [hrun1]; simp [hav]
  have h1aid : (run_conversation st false env1 m1 ch mid1).redis.assistantId
      = some aid := by
    rw [hrun1]; simp [ha]
  have h1thr : alistFind (getThreadKey ch)
      (run_conversation st false env1 m1 ch mid1).redis.threads = none := by
    rw [hrun1, delete_thread_snd_threads _ _ h2av]
    exact alistFind_erase_self _ _
  have h1met : alistFind (getMetadataKey ch)
      (run_conversation st false env1 m1 ch mid1).redis.metas = none := by
    rw [hrun1, delete_thread_snd_metas _ _ h2av]
    exact alistFind_erase_self _ _
  have hga1 : RedisService.get_assistant_id
      (run_conversation st false env1 m1 ch mid1).redis = some aid := by
    simp [RedisService.get_assistant_id, h1avail, h1aid]
  have hget2 : RedisService.get_thread_id
      (run_conversation st false env1 m1 ch mid1).redis ch
      = (none, (run_conversation st false env1 m1 ch mid1).redis) := by
    simp [RedisService.get_thread_id, h1avail, h1thr]
  refine ⟨h1thr, h1met, ?_, ?_⟩
  · generalize hst1 : (run_conversation st false env1 m1 ch mid1).redis = st1
      at h1avail hga1 hget2 ⊢
    simp [run_conversation, hga1, run_conversation_body, h2c, h2s, h2o,
      resolveThread, hget2]
  · generalize hst1 : (run_conversation st false env1 m1 ch mid1).redis = st1
      at h1avail hga1 hget2 ⊢
    simp [run_conversation, hga1, run_conversation_body, h2c, h2s, h2o,
      resolveThread, hget2, set_thread_id_snd_threads _ _ env2.freshThread h1avail,
      alistFind_insert_self]

theorem invalidate_then_fresh_thread_witness :
    staleRedis.available = true
    ∧ staleRedis.assistantId = some "asst_1"
    ∧ notFoundEnv.wsConnectErr = none
    ∧ notFoundEnv.wsSubscribeErr = none
    ∧ notFoundEnv.outcome = RunOutcome.notFound "gone"
    ∧ sampleConvEnv.wsConnectErr = none
    ∧ sampleConvEnv.wsSubscribeErr = none
    ∧ sampleConvEnv.outcome = RunOutcome.completed
    ∧ (alistFind (getThreadKey "chan-1")
          (run_conversation staleRedis false notFoundEnv "hi" "chan-1" "m1").redis.threads
          = none
       ∧ alistFind (getMetadataKey "chan-1")
          (run_conversation staleRedis false notFoundEnv "hi" "chan-1" "m1").redis.metas
          = none
       ∧ (run_conversation
            (run_conversation staleRedis false notFoundEnv "hi" "chan-1" "m1").redis
            false sampleConvEnv "hi again" "chan-1" "m2").ops
          = [ProviderOp.createThread,
             ProviderOp.createMessage sampleConvEnv.freshThread "hi again",
             ProviderOp.streamRun sampleConvEnv.freshThread]
       ∧ alistFind (getThreadKey "chan-1")
          (run_conversation
            (run_conversation staleRedis false notFoundEnv "hi" "chan-1" "m1").redis
            false sampleConvEnv "hi again" "chan-1" "m2").redis.threads
          = some sampleConvEnv.freshThread) :=
  ⟨rfl, rfl, rfl, rfl, rfl, rfl, rfl, rfl,
   invalidate_then_fresh_thread staleRedis "chan-1" "hi" "hi again" "m1" "m2"
     "asst_1" "gone" notFoundEnv sampleConvEnv rfl rfl rfl rfl rfl rfl rfl rfl⟩
